import Mathlib

/-!
Shallow embedding of `src/server/devpi_server/extpypi.py` (devpi PyPI
mirror core): the simple-index parser (`IndexParser`), the crawler
(`perform_crawling`), the per-project cache (`PyPIStage._dump_project_cache`
/ `_load_cache_entries`), the stage facade (`PyPIStage.getreleaselinks`),
and the changelog loop (`PyPIMirror.process_changelog` / `thread_run`).

External collaborators (`devpi_common.url.URL`, `devpi_common.metadata`,
`devpi_common.validation.normalize_name`, the keyfs KV store, the file
store and HTTP client) are modelled as data: URLs and HTTP responses are
records of the fields the source reads, the KV store is an association
list, and external computations the source merely threads through
(archive detection, basename metadata ordering, the file store's
`maplink`) are parameters or spec-modelled functions.
-/

namespace Devpi

/-- Modelled from the spec: `normalize_name` lives in
`devpi_common.validation`, which is not part of the sources here.  Per the
spec a name is normalized by lowercasing it and collapsing every run of
the characters `-`, `_`, `.` into a single `-`. -/
def isSepChar (c : Char) : Bool :=
  c = '-' || c = '_' || c = '.'

/-- Modelled from the spec: character-list worker for `normalize_name`;
the boolean records whether the previous character belonged to a
separator run. -/
def normalizeAux : List Char → Bool → List Char
  | [], _ => []
  | c :: rest, inSep =>
    if isSepChar c then
      if inSep then normalizeAux rest true
      else '-' :: normalizeAux rest true
    else c.toLower :: normalizeAux rest false

/-- Modelled from the spec: lowercase, runs of `-`, `_`, `.` collapsed to
a single `-`. -/
def normalize_name (s : String) : String :=
  ⟨normalizeAux s.data false⟩

/-- Association-list lookup, modelling a Python dict read
(`d.get(k)` / `d[k]`). -/
def kvGet {V : Type} (l : List (String × V)) (k : String) : Option V :=
  (l.find? (fun p => p.1 = k)).map (fun p => p.2)

/-- Association-list update, modelling a Python dict write (`d[k] = v`).
The new binding is consed in front; `kvGet` always sees the newest
binding, matching dict semantics for reads. -/
def kvSet {V : Type} (l : List (String × V)) (k : String) (v : V) :
    List (String × V) :=
  (k, v) :: l

/-- The fields of `devpi_common.url.URL` that `extpypi.py` reads:
`url`, `basename`, `eggfragment`, `md5` (empty string standing for the
absent/falsy value, as in the Python truthiness tests), and the result
of `is_valid_http_url()`. -/
structure URL where
  url : String
  basename : String
  eggfragment : String
  md5 : String
  valid_http : Bool
deriving DecidableEq, Repr

/-- State of `IndexParser` (`extpypi.py` lines 31-37): normalized project
name, the basename → link dict, the crawl-link set (modelled as a
duplicate-free list) and the egg-link list. -/
structure IndexParser where
  projectname : String
  basename2link : List (String × URL)
  crawllinks : List URL
  egglinks : List URL
deriving DecidableEq, Repr

/-- `IndexParser.__init__`: stores the normalized project name and empty
collections. -/
def IndexParser.init (projectname : String) : IndexParser :=
  ⟨normalize_name projectname, [], [], []⟩

/-- `IndexParser._mergelink_ifbetter` (lines 39-45): adopt the new link
when no link for the basename exists, or when the existing one lacks a
digest and the new one has one; otherwise keep the existing link. -/
def IndexParser.mergelink_ifbetter (st : IndexParser) (newurl : URL) :
    IndexParser :=
  match kvGet st.basename2link newurl.basename with
  | none =>
      ⟨st.projectname, kvSet st.basename2link newurl.basename newurl,
        st.crawllinks, st.egglinks⟩
  | some entry =>
      if entry.md5 = "" ∧ ¬ newurl.md5 = "" then
        ⟨st.projectname, kvSet st.basename2link newurl.basename newurl,
          st.crawllinks, st.egglinks⟩
      else st

/-- One step of the `for link in p.links` loop of
`IndexParser.parse_index` (lines 57-85).  `isArchive` stands for
`devpi_common.metadata.is_archive_of_project`, which is external to the
sources; the parser only branches on its boolean result.  The `seen` set
of accepted archive URLs is threaded alongside the state. -/
def parse_link (isArchive : URL → String → Bool) (scrape : Bool)
    (st : IndexParser) (seen : List String) (newurl : URL) :
    IndexParser × List String :=
  if ¬ newurl.valid_http then (st, seen)
  else if scrape ∧ ¬ newurl.eggfragment = "" then
    if ¬ (normalize_name newurl.eggfragment).startsWith st.projectname then
      (st, seen)
    else if ¬ newurl.basename = "" then
      if newurl ∈ st.egglinks then (st, seen)
      else
        (⟨st.projectname, st.basename2link, st.crawllinks,
           newurl :: st.egglinks⟩, seen)
    else (st, seen)
  else if isArchive newurl st.projectname then
    (st.mergelink_ifbetter newurl, newurl.url :: seen)
  else (st, seen)

/-- The whole `for link in p.links` loop, folded over the page's links. -/
def parse_links (isArchive : URL → String → Bool) (scrape : Bool)
    (st : IndexParser) (seen : List String) :
    List URL → IndexParser × List String
  | [] => (st, seen)
  | l :: rest =>
      let r := parse_link isArchive scrape st seen l
      parse_links isArchive scrape r.1 r.2 rest

/-- The `for link in p.rel_links()` loop (lines 86-91), run only when
`scrape` is true: every valid rel-link whose URL was not accepted as an
archive is added to the crawl set (set membership modelled by
list membership). -/
def add_crawl_links (st : IndexParser) (seen : List String) :
    List URL → IndexParser
  | [] => st
  | l :: rest =>
      if l.url ∉ seen ∧ l.valid_http ∧ l ∉ st.crawllinks then
        add_crawl_links
          ⟨st.projectname, st.basename2link, st.crawllinks ++ [l],
            st.egglinks⟩ seen rest
      else add_crawl_links st seen rest

/-- `IndexParser.parse_index` (lines 54-91).  The HTML page is modelled
by the two link lists the source extracts from it: `p.links` and
`p.rel_links()` (HTML parsing itself lives in the vendored pip code,
external to these sources). -/
def IndexParser.parse_index (st : IndexParser)
    (isArchive : URL → String → Bool) (links rellinks : List URL)
    (scrape : Bool) : IndexParser :=
  let r := parse_links isArchive scrape st [] links
  if scrape then add_crawl_links r.1 r.2 rellinks else r.1

/-- `IndexParser.releaselinks` (lines 47-52): egg links first, then the
archive links of `basename2link` sorted in reverse `BasenameMeta` order.
`meta_le` stands for the ordering of `devpi_common.metadata.BasenameMeta`
(parsed project, version, build tag, filename), external to these
sources; `sorted(..., reverse=True)` is a stable sort by the flipped
order, which `List.mergeSort` with the flipped relation implements. -/
def IndexParser.releaselinks (meta_le : URL → URL → Bool)
    (st : IndexParser) : List URL :=
  st.egglinks ++
    List.mergeSort (st.basename2link.map (fun p => p.2))
      (fun a b => meta_le b a)

/-- The file-store entry handle for a release link, as the source reads
it: `relpath`, `md5`, and the key name (`entry.key.name`).  The file
store itself (`filestore.get_proxy_file_entry`) is external; an entry is
determined by the triple the cache persists. -/
structure Entry where
  relpath : String
  md5 : String
  keyname : String
deriving DecidableEq, Repr

/-- `filestore.get_proxy_file_entry(relpath, md5, keyname)`: rebuilds the
entry handle from the persisted triple. -/
def get_proxy_file_entry (t : String × String × String) : Entry :=
  ⟨t.1, t.2.1, t.2.2⟩

/-- The persisted `PYPILINKS` record (`_dump_project_cache`, lines
188-197): observed serial, latest known serial, dumped entry triples and
the raw project name. -/
structure CacheRecord where
  serial : Int
  latest_serial : Int
  entrylist : List (String × String × String)
  projectname : String
deriving DecidableEq, Repr

/-- Combined mutable state of `PyPIMirror` and `PyPIStage`: the
`name2serials` registry, the sparse `normname2name` reverse index, and
the keyfs `PYPILINKS` key space. -/
structure MirrorState where
  name2serials : List (String × Int)
  normname2name : List (String × String)
  kv : List (String × CacheRecord)
deriving DecidableEq, Repr

/-- `PyPIStage._dump_project_cache` (lines 188-197): store
`{serial, latest_serial := serial, entrylist, projectname}` under the
normalized key. -/
def dump_project_cache (st : MirrorState) (projectname : String)
    (entries : List Entry) (serial : Int) : MirrorState :=
  let dumplist := entries.map (fun e => (e.relpath, e.md5, e.keyname))
  ⟨st.name2serials, st.normname2name,
    kvSet st.kv (normalize_name projectname)
      ⟨serial, serial, dumplist, projectname⟩⟩

/-- `PyPIStage._load_project_cache` (lines 199-203): read the record
under the normalized key. -/
def load_project_cache (st : MirrorState) (projectname : String) :
    Option CacheRecord :=
  kvGet st.kv (normalize_name projectname)

/-- `PyPIStage._load_cache_entries` (lines 205-210): return the proxied
entries when the record exists and is fresh
(`serial >= latest_serial`), else nothing. -/
def load_cache_entries (st : MirrorState) (projectname : String) :
    Option (List Entry) :=
  match load_project_cache st projectname with
  | some cache =>
      if cache.serial ≥ cache.latest_serial then
        some (cache.entrylist.map get_proxy_file_entry)
      else none
  | none => none

/-- `PyPIStage.get_project_info` (lines 275-279): map the normalized name
through the reverse index and succeed iff the resulting raw name is in
the registry; the `ProjectInfo` result is modelled by its name. -/
def get_project_info (st : MirrorState) (name : String) : Option String :=
  let norm_name := normalize_name name
  let name := (kvGet st.normname2name norm_name).getD norm_name
  if (kvGet st.name2serials name).isSome then some name else none

/-- The upstream HTTP response fields `getreleaselinks` reads: status
code, the `X-PYPI-LAST-SERIAL` and `X-DEVPI-SERIAL` headers, and the
final URL.  A transport failure is the sentinel status `-1`, as the
source's HTTP layer produces. -/
structure HttpResponse where
  status_code : Int
  x_pypi_last_serial : Int
  x_devpi_serial : Int
  url : String
deriving DecidableEq, Repr

/-- Result of `getreleaselinks`: either a list of entries or an integer
status/sentinel code. -/
inductive GR where
  | entries : List Entry → GR
  | code : Int → GR
deriving DecidableEq, Repr

/-- Observable outcome of one `getreleaselinks` call: the result, the
state after the call (recording any cache write), and whether the
simple-page HTTP request was issued before returning. -/
structure GetOutcome where
  result : GR
  state : MirrorState
  fetched : Bool
deriving DecidableEq, Repr

/-- `PyPIStage.getreleaselinks` (lines 212-271).  External effects are
parameters: `response` is what `httpget` on the simple URL returns (read
only on paths that issue the request, which the `fetched` flag records);
`st_after_sync` is the state the replica observes after
`wait_tx_serial` / commit / re-begin; `refreshed` is the entry list the
primary success path computes via parse, crawl and `filestore.maplink`.
The `real_projectname` derived from the response URL is identified with
`info.name` per the source's assertion on line 248. -/
def getreleaselinks (is_replica : Bool) (st : MirrorState) (name : String)
    (response : HttpResponse) (st_after_sync : MirrorState)
    (refreshed : List Entry) : GetOutcome :=
  match load_cache_entries st name with
  | some entries => ⟨GR.entries entries, st, false⟩
  | none =>
    match get_project_info st name with
    | none => ⟨GR.code 404, st, false⟩
    | some info_name =>
      if ¬ response.status_code = 200 then
        ⟨GR.code response.status_code, st, true⟩
      else if is_replica then
        match load_cache_entries st_after_sync name with
        | some entries => ⟨GR.entries entries, st_after_sync, true⟩
        | none => ⟨GR.code 502, st_after_sync, true⟩
      else
        let serial := response.x_pypi_last_serial
        let newest_serial := (kvGet st.name2serials info_name).getD (-1)
        if serial < newest_serial then ⟨GR.code (-2), st, true⟩
        else
          ⟨GR.entries refreshed,
            dump_project_cache st info_name refreshed serial, true⟩

/-- One entry of an upstream changelog batch; the source reads only the
name and the serial (`version`, `action`, `date` are unused apart from
the unimplemented remove handling). -/
structure ChangeEntry where
  name : String
  serial : Int
deriving DecidableEq, Repr

/-- Observable events of one changelog-loop iteration, for the temporal
ordering claims: transaction begin/commit, a `PYPILINKS` write, and the
registry-blob rewrite (`dump_to_file` of `name2serials`). -/
inductive Event where
  | txBegin : Event
  | txCommit : Event
  | kvWrite : String → Event
  | blobRewrite : Event
deriving DecidableEq, Repr

/-- `PyPIMirror.set_project_serial` (lines 343-349): record the serial,
fill the reverse index when the normalized form differs, return the
normalized name. -/
def set_project_serial (st : MirrorState) (name : String) (serial : Int) :
    MirrorState × String :=
  let st1 : MirrorState :=
    ⟨kvSet st.name2serials name serial, st.normname2name, st.kv⟩
  let n := normalize_name name
  if ¬ n = name then
    (⟨st1.name2serials, kvSet st1.normname2name n name, st1.kv⟩, n)
  else (st1, n)

/-- The `for x in changelog` loop of `PyPIMirror.process_changelog`
(lines 366-380).  Returns the state, the emitted KV-write events, and
whether the loop hit the early `return` on line 376 (a cached record
whose `latest_serial` already reaches the entry's serial), which
abandons the rest of the batch. -/
def process_changelog_loop (st : MirrorState) :
    List ChangeEntry → MirrorState × List Event × Bool
  | [] => (st, [], false)
  | e :: rest =>
    let r := set_project_serial st e.name e.serial
    match kvGet r.1.kv r.2 with
    | some cache =>
        if cache.latest_serial ≥ e.serial then (r.1, [], true)
        else
          let st2 : MirrorState :=
            ⟨r.1.name2serials, r.1.normname2name,
              kvSet r.1.kv r.2
                ⟨cache.serial, e.serial, cache.entrylist,
                  cache.projectname⟩⟩
          let rec' := process_changelog_loop st2 rest
          (rec'.1, Event.kvWrite r.2 :: rec'.2.1, rec'.2.2)
    | none => process_changelog_loop r.1 rest

/-- `PyPIMirror.process_changelog` (lines 363-389): run the loop; when it
finishes without the early return and `name2serials` is non-empty,
rewrite the registry blob (`dump_to_file`, line 386) — still inside the
caller's transaction. -/
def process_changelog (st : MirrorState) (changelog : List ChangeEntry) :
    MirrorState × List Event :=
  let r := process_changelog_loop st changelog
  if ¬ r.2.2 ∧ ¬ r.1.name2serials = [] then
    (r.1, r.2.1 ++ [Event.blobRewrite])
  else (r.1, r.2.1)

/-- One iteration of `PyPIMirror.thread_run` (lines 354-361): when the
changelog batch is non-empty, open a write transaction, run
`process_changelog` inside it, and commit on leaving the `with` block. -/
def thread_run_iteration (st : MirrorState) (changelog : List ChangeEntry) :
    MirrorState × List Event :=
  if changelog = [] then (st, [])
  else
    let r := process_changelog st changelog
    (r.1, Event.txBegin :: r.2 ++ [Event.txCommit])

/-- The response fields `perform_crawling` reads from a crawl fetch:
status code, the `content-type` header, the final URL, and the link
lists its HTML parses into. -/
structure CrawlResponse where
  status_code : Int
  content_type : String
  url : String
  links : List URL
  rellinks : List URL
deriving Repr

/-- One pass of the `while pending` body of `perform_crawling` (lines
134-149): fetch the popped URL (`httpget` is modelled as a function from
URL strings to responses), re-parse a successful `text/html` body with
`scrape := false`, drop anything else; the counter records the HTTP
request issued. -/
def crawl_step (isArchive : URL → String → Bool)
    (httpget : String → CrawlResponse) (acc : IndexParser × Nat)
    (crawlurl : URL) : IndexParser × Nat :=
  let response := httpget crawlurl.url
  let n := acc.2 + 1
  if response.status_code = 200 ∧
      (response.content_type.toLower.startsWith "text/html") then
    (acc.1.parse_index isArchive response.links response.rellinks false, n)
  else (acc.1, n)

/-- The `while pending` loop of `perform_crawling`: every URL of the
initial crawl set is popped and fetched once. -/
def perform_crawling (isArchive : URL → String → Bool)
    (httpget : String → CrawlResponse) (st : IndexParser) :
    IndexParser × Nat :=
  st.crawllinks.foldl (crawl_step isArchive httpget) (st, 0)

/-- A concrete stand-in for the `BasenameMeta` ordering, used to
instantiate theorems about `releaselinks` at a computable total
preorder: compare URLs by the length of their url string. -/
def urlLenLe (a b : URL) : Bool :=
  a.url.length ≤ b.url.length

/-- A concrete parser state with one egg link and two archive links,
used to instantiate theorems about `releaselinks`. -/
def relWitnessState : IndexParser :=
  ⟨"pkg",
    [("pkg-1.0.zip", ⟨"u1", "pkg-1.0.zip", "", "", true⟩),
      ("pkg-2.0.zip", ⟨"u2longer", "pkg-2.0.zip", "", "", true⟩)],
    [], [⟨"e1", "pkg", "pkg", "", true⟩]⟩

/-!  Helper lemmas about the association-list KV model and the mirror
state, shared by the claim theorems.  -/

@[simp]
theorem kvGet_set_self {V : Type} (l : List (String × V)) (k : String)
    (v : V) : kvGet (kvSet l k v) k = some v := by
  simp [kvGet, kvSet, List.find?]

@[simp]
theorem set_project_serial_kv (st : MirrorState) (name : String)
    (serial : Int) : (set_project_serial st name serial).1.kv = st.kv := by
  simp only [set_project_serial]
  split <;> rfl

@[simp]
theorem set_project_serial_norm (st : MirrorState) (name : String)
    (serial : Int) :
    (set_project_serial st name serial).2 = normalize_name name := by
  simp only [set_project_serial]
  split <;> rfl

@[simp]
theorem get_proxy_dump_roundtrip (e : Entry) :
    get_proxy_file_entry (e.relpath, e.md5, e.keyname) = e := rfl

@[simp]
theorem process_changelog_state (st : MirrorState)
    (changelog : List ChangeEntry) :
    (process_changelog st changelog).1 =
      (process_changelog_loop st changelog).1 := by
  simp only [process_changelog]
  split <;> rfl

/-- C1: the claim states that one changelog iteration processes every
entry of the batch, with no entry skipped or abandoned.  The code's
`process_changelog` instead executes `return` (line 376) as soon as one
entry finds a cached record with `latest_serial >= serial`, abandoning
the remainder of the batch (the spec itself flags this as a likely bug,
`return` where `continue` was intended).  At the concrete input below —
a batch of two entries whose first hits such a cached record — the
second entry `("pkg-b", 6)` is never recorded in the registry, and the
early-return flag of the loop is set. -/
theorem process_changelog_abandons_rest_of_batch :
    kvGet (process_changelog ⟨[], [], [("pkg-a", ⟨5, 5, [], "pkg-a"⟩)]⟩
      [⟨"pkg-a", 5⟩, ⟨"pkg-b", 6⟩]).1.name2serials "pkg-b" = none ∧
    (process_changelog_loop ⟨[], [], [("pkg-a", ⟨5, 5, [], "pkg-a"⟩)]⟩
      [⟨"pkg-a", 5⟩, ⟨"pkg-b", 6⟩]).2.2 = true := by
  constructor <;> rfl

/-- C2: on the primary path, when the cache misses, the project is known,
and the upstream returns status 200 with an `X-PYPI-LAST-SERIAL` header
strictly below the serial the registry knows for the project,
`getreleaselinks` returns `-2` and performs no cache write (the state is
returned unchanged). -/
theorem getreleaselinks_stale_returns_neg2 (st : MirrorState)
    (name : String) (response : HttpResponse) (st2 : MirrorState)
    (refreshed : List Entry) (info : String) (ns : Int)
    (hmiss : load_cache_entries st name = none)
    (hinfo : get_project_info st name = some info)
    (h200 : response.status_code = 200)
    (hns : kvGet st.name2serials info = some ns)
    (hlt : response.x_pypi_last_serial < ns) :
    getreleaselinks false st name response st2 refreshed =
      ⟨GR.code (-2), st, true⟩ := by
  simp [getreleaselinks, hmiss, hinfo, h200, hns, hlt]

/-- Witness for C2 at a concrete input: registry knows `Django` at serial
7, upstream answers 200 with serial 5. -/
theorem getreleaselinks_stale_returns_neg2_witness :
    getreleaselinks false ⟨[("Django", 7)], [("django", "Django")], []⟩
      "django" ⟨200, 5, 0, ""⟩ ⟨[("Django", 7)], [("django", "Django")], []⟩
      [] = ⟨GR.code (-2), ⟨[("Django", 7)], [("django", "Django")], []⟩,
        true⟩ :=
  getreleaselinks_stale_returns_neg2 _ _ _ _ _ "Django" 7 (by decide)
    (by decide) (by decide) (by decide) (by decide)

/-- C8: `_mergelink_ifbetter` keeps the digested link for a basename
regardless of the order in which a digested and an undigested link with
the same basename are seen: a digested existing link is never replaced,
and an undigested existing link is replaced by a digested newcomer. -/
theorem mergelink_digest_order_independent (st : IndexParser) (a b : URL)
    (hbase : a.basename = b.basename)
    (hda : ¬ a.md5 = "") (hdb : b.md5 = "")
    (hnone : kvGet st.basename2link a.basename = none) :
    kvGet ((st.mergelink_ifbetter a).mergelink_ifbetter b).basename2link
        a.basename = some a ∧
    kvGet ((st.mergelink_ifbetter b).mergelink_ifbetter a).basename2link
        a.basename = some a := by
  constructor
  · simp [IndexParser.mergelink_ifbetter, hnone, ← hbase, hda]
  · simp [IndexParser.mergelink_ifbetter, hnone, ← hbase, hda, hdb]

/-- Witness for C8 at a concrete input: two links sharing a basename,
only one carrying an md5 digest. -/
theorem mergelink_digest_order_independent_witness :
    kvGet (((IndexParser.init "pkg").mergelink_ifbetter
        ⟨"u1", "pkg-1.0.zip", "", "abc", true⟩).mergelink_ifbetter
        ⟨"u2", "pkg-1.0.zip", "", "", true⟩).basename2link "pkg-1.0.zip" =
      some ⟨"u1", "pkg-1.0.zip", "", "abc", true⟩ ∧
    kvGet (((IndexParser.init "pkg").mergelink_ifbetter
        ⟨"u2", "pkg-1.0.zip", "", "", true⟩).mergelink_ifbetter
        ⟨"u1", "pkg-1.0.zip", "", "abc", true⟩).basename2link "pkg-1.0.zip" =
      some ⟨"u1", "pkg-1.0.zip", "", "abc", true⟩ :=
  mergelink_digest_order_independent (IndexParser.init "pkg")
    ⟨"u1", "pkg-1.0.zip", "", "abc", true⟩
    ⟨"u2", "pkg-1.0.zip", "", "", true⟩ rfl (by decide) rfl (by decide)

/-- C6 counterexample: the claim states that a name unknown to the
registry yields 404 regardless of any cached record, the registry lookup
happening before the cache load.  In the code the cache load (line 221)
precedes the registry lookup (line 224): with an empty registry (so
`"nonesuch"` resolves to no entry) but a fresh cached record under the
key `nonesuch`, `getreleaselinks` returns the cached entries, not 404,
and issues no fetch. -/
theorem getreleaselinks_unknown_name_counterexample :
    get_project_info ⟨[], [], [("nonesuch", ⟨3, 3, [("p", "m", "k")],
      "nonesuch"⟩)]⟩ "nonesuch" = none ∧
    getreleaselinks false ⟨[], [], [("nonesuch", ⟨3, 3, [("p", "m", "k")],
        "nonesuch"⟩)]⟩ "nonesuch" ⟨200, 0, 0, ""⟩
      ⟨[], [], []⟩ [] =
      ⟨GR.entries [⟨"p", "m", "k"⟩], ⟨[], [], [("nonesuch",
        ⟨3, 3, [("p", "m", "k")], "nonesuch"⟩)]⟩, false⟩ ∧
    ¬ (getreleaselinks false ⟨[], [], [("nonesuch", ⟨3, 3, [("p", "m", "k")],
        "nonesuch"⟩)]⟩ "nonesuch" ⟨200, 0, 0, ""⟩
      ⟨[], [], []⟩ []).result = GR.code 404 := by
  refine ⟨rfl, rfl, ?_⟩
  decide

/-- C6 amended: for every name whose normalized form resolves to no
entry in the registry and for which the cache load finds no fresh
record, `getreleaselinks` returns 404 without issuing any HTTP request
and without touching the state; the cache load is performed before the
registry lookup, so a fresh cached record is served even for a name
unknown to the registry. -/
theorem getreleaselinks_unknown_no_cache_404 (rep : Bool)
    (st : MirrorState) (name : String) (response : HttpResponse)
    (st2 : MirrorState) (refreshed : List Entry)
    (hmiss : load_cache_entries st name = none)
    (hinfo : get_project_info st name = none) :
    getreleaselinks rep st name response st2 refreshed =
      ⟨GR.code 404, st, false⟩ := by
  simp [getreleaselinks, hmiss, hinfo]

/-- Witness for the amended C6 at a concrete input: empty registry and
empty cache. -/
theorem getreleaselinks_unknown_no_cache_404_witness :
    getreleaselinks false ⟨[], [], []⟩ "nonesuch" ⟨200, 0, 0, ""⟩
      ⟨[], [], []⟩ [] = ⟨GR.code 404, ⟨[], [], []⟩, false⟩ :=
  getreleaselinks_unknown_no_cache_404 false ⟨[], [], []⟩ "nonesuch"
    ⟨200, 0, 0, ""⟩ ⟨[], [], []⟩ [] rfl (by decide)

/-- C10: on a replica, when the cache misses, the project is known and
the upstream fetch returns 200, `getreleaselinks` re-reads the cache in
the state observed after waiting on the notifier and committing and
re-beginning the transaction (modelled by `st2`): a fresh record yields
its entries, an absent or stale record yields 502. -/
theorem getreleaselinks_replica_retry (st : MirrorState) (name : String)
    (response : HttpResponse) (st2 : MirrorState) (refreshed : List Entry)
    (info : String)
    (hmiss : load_cache_entries st name = none)
    (hinfo : get_project_info st name = some info)
    (h200 : response.status_code = 200) :
    (∀ es, load_cache_entries st2 name = some es →
      getreleaselinks true st name response st2 refreshed =
        ⟨GR.entries es, st2, true⟩) ∧
    (load_cache_entries st2 name = none →
      getreleaselinks true st name response st2 refreshed =
        ⟨GR.code 502, st2, true⟩) := by
  constructor
  · intro es hs
    simp [getreleaselinks, hmiss, hinfo, h200, hs]
  · intro hs
    simp [getreleaselinks, hmiss, hinfo, h200, hs]

/-- Witness for C10 at a concrete input: the replica's post-wait state
holds a fresh record for the project. -/
theorem getreleaselinks_replica_retry_witness :
    (∀ es, load_cache_entries ⟨[("Django", 7)], [("django", "Django")],
        [("django", ⟨7, 7, [("p", "m", "k")], "Django"⟩)]⟩ "django" =
        some es →
      getreleaselinks true ⟨[("Django", 7)], [("django", "Django")], []⟩
        "django" ⟨200, 7, 42, ""⟩ ⟨[("Django", 7)], [("django", "Django")],
          [("django", ⟨7, 7, [("p", "m", "k")], "Django"⟩)]⟩ [] =
        ⟨GR.entries es, ⟨[("Django", 7)], [("django", "Django")],
          [("django", ⟨7, 7, [("p", "m", "k")], "Django"⟩)]⟩, true⟩) ∧
    (load_cache_entries ⟨[("Django", 7)], [("django", "Django")],
        [("django", ⟨7, 7, [("p", "m", "k")], "Django"⟩)]⟩ "django" =
        none →
      getreleaselinks true ⟨[("Django", 7)], [("django", "Django")], []⟩
        "django" ⟨200, 7, 42, ""⟩ ⟨[("Django", 7)], [("django", "Django")],
          [("django", ⟨7, 7, [("p", "m", "k")], "Django"⟩)]⟩ [] =
        ⟨GR.code 502, ⟨[("Django", 7)], [("django", "Django")],
          [("django", ⟨7, 7, [("p", "m", "k")], "Django"⟩)]⟩, true⟩) :=
  getreleaselinks_replica_retry ⟨[("Django", 7)], [("django", "Django")],
      []⟩ "django" ⟨200, 7, 42, ""⟩
    ⟨[("Django", 7)], [("django", "Django")],
      [("django", ⟨7, 7, [("p", "m", "k")], "Django"⟩)]⟩ [] "Django"
    (by decide) (by decide) (by decide)

/-- C4: after `_dump_project_cache(name, E, s)` the stored record has
`serial = latest_serial = s`, so it loads as fresh and
`_load_cache_entries` returns the entries `E`; after a subsequent bump of
`latest_serial` to `s + 1` (one changelog entry `(name, s + 1)` through
`process_changelog`), the record is stale and `_load_cache_entries`
returns nothing. -/
theorem dump_load_fresh_bump_stale (st : MirrorState) (name : String)
    (E : List Entry) (s : Int) :
    load_project_cache (dump_project_cache st name E s) name =
      some ⟨s, s, E.map (fun e => (e.relpath, e.md5, e.keyname)), name⟩ ∧
    load_cache_entries (dump_project_cache st name E s) name = some E ∧
    load_cache_entries
      ((process_changelog (dump_project_cache st name E s)
        [⟨name, s + 1⟩]).1) name = none := by
  refine ⟨?_, ?_, ?_⟩
  · simp [load_project_cache, dump_project_cache]
  · have h : List.map get_proxy_file_entry
        (E.map (fun e => (e.relpath, e.md5, e.keyname))) = E := by
      rw [List.map_map]
      exact List.map_id'' (fun e => rfl) E
    simp [load_cache_entries, load_project_cache, dump_project_cache, h]
  · simp only [process_changelog_state, process_changelog_loop,
      set_project_serial_kv, set_project_serial_norm, dump_project_cache,
      kvGet_set_self]
    rw [if_neg (by omega)]
    simp [load_cache_entries, load_project_cache]

theorem mergelink_crawllinks (st : IndexParser) (u : URL) :
    (st.mergelink_ifbetter u).crawllinks = st.crawllinks := by
  unfold IndexParser.mergelink_ifbetter
  split
  · rfl
  · split <;> rfl

theorem parse_link_crawllinks (ia : URL → String → Bool) (scrape : Bool)
    (st : IndexParser) (seen : List String) (u : URL) :
    (parse_link ia scrape st seen u).1.crawllinks = st.crawllinks := by
  unfold parse_link
  repeat' split
  all_goals first | rfl | exact mergelink_crawllinks st u

theorem parse_links_crawllinks (ia : URL → String → Bool) (scrape : Bool) :
    ∀ (links : List URL) (st : IndexParser) (seen : List String),
      (parse_links ia scrape st seen links).1.crawllinks = st.crawllinks
  | [], _, _ => rfl
  | l :: rest, st, seen => by
      simp only [parse_links]
      rw [parse_links_crawllinks ia scrape rest _ _]
      exact parse_link_crawllinks ia scrape st seen l

theorem parse_index_scrape_false_crawllinks (st : IndexParser)
    (ia : URL → String → Bool) (links rellinks : List URL) :
    (st.parse_index ia links rellinks false).crawllinks = st.crawllinks := by
  simp only [IndexParser.parse_index, Bool.false_eq_true, if_false]
  exact parse_links_crawllinks ia false links st []

theorem crawl_foldl (ia : URL → String → Bool)
    (httpget : String → CrawlResponse) :
    ∀ (l : List URL) (p : IndexParser) (n : Nat),
      (l.foldl (crawl_step ia httpget) (p, n)).2 = n + l.length ∧
      (l.foldl (crawl_step ia httpget) (p, n)).1.crawllinks = p.crawllinks
  | [], p, n => by simp
  | u :: rest, p, n => by
      have hstep1 : (crawl_step ia httpget (p, n) u).2 = n + 1 := by
        simp only [crawl_step]
        split <;> rfl
      have hstep2 : (crawl_step ia httpget (p, n) u).1.crawllinks =
          p.crawllinks := by
        simp only [crawl_step]
        split
        · exact parse_index_scrape_false_crawllinks p ia
            (httpget u.url).links (httpget u.url).rellinks
        · rfl
      have ih := crawl_foldl ia httpget rest
        (crawl_step ia httpget (p, n) u).1 (crawl_step ia httpget (p, n) u).2
      simp only [List.foldl_cons]
      constructor
      · rw [ih.1, hstep1]
        simp only [List.length_cons]
        omega
      · rw [ih.2, hstep2]

/-- C9: `perform_crawling` issues exactly one HTTP request per URL of
the initial crawl set — `N` requests for a set of size `N`, so parser
plus crawler issue at most `N + 1` requests counting the simple-page
fetch — and the crawl set is unchanged afterwards: re-parsing the
fetched pages with `scrape := false` harvests no new crawl candidates,
so there is no recursion. -/
theorem perform_crawling_bound (ia : URL → String → Bool)
    (httpget : String → CrawlResponse) (st : IndexParser) :
    (perform_crawling ia httpget st).2 = st.crawllinks.length ∧
    (perform_crawling ia httpget st).1.crawllinks = st.crawllinks := by
  have h := crawl_foldl ia httpget st.crawllinks st 0
  simpa [perform_crawling] using h

/-- C3: with `scrape := true`, a valid link carrying an egg-fragment is
dropped outright when the normalized fragment's leading part does not
match the project's normalized name; when it matches and the link has a
filename component and is not already an egg link, it is inserted at the
front of the egg-link list; when it is already present the state is
unchanged. -/
theorem parse_link_egg_behavior (ia : URL → String → Bool)
    (st : IndexParser) (seen : List String) (link : URL)
    (hv : link.valid_http = true) (he : ¬ link.eggfragment = "") :
    ((normalize_name link.eggfragment).startsWith st.projectname = false →
      parse_link ia true st seen link = (st, seen)) ∧
    ((normalize_name link.eggfragment).startsWith st.projectname = true →
      ¬ link.basename = "" → link ∉ st.egglinks →
      parse_link ia true st seen link =
        (⟨st.projectname, st.basename2link, st.crawllinks,
          link :: st.egglinks⟩, seen)) ∧
    ((normalize_name link.eggfragment).startsWith st.projectname = true →
      link ∈ st.egglinks →
      parse_link ia true st seen link = (st, seen)) := by
  refine ⟨?_, ?_, ?_⟩
  · intro h1
    simp [parse_link, hv, he, h1]
  · intro h1 h2 h3
    simp [parse_link, hv, he, h1, h2, h3]
  · intro h1 h2
    simp [parse_link, hv, he, h1, h2]

/-- Witness for C3 at a concrete input: an egg link for the project
itself, with a filename component, seen for the first time. -/
theorem parse_link_egg_behavior_witness :
    ((normalize_name "pkg").startsWith (IndexParser.init "pkg").projectname
        = false →
      parse_link (fun _ _ => false) true (IndexParser.init "pkg") []
        ⟨"http://h/pkg-1.0.zip", "pkg-1.0.zip", "pkg", "", true⟩ =
        (IndexParser.init "pkg", [])) ∧
    ((normalize_name "pkg").startsWith (IndexParser.init "pkg").projectname
        = true →
      ¬ (URL.basename ⟨"http://h/pkg-1.0.zip", "pkg-1.0.zip", "pkg", "",
          true⟩) = "" →
      (⟨"http://h/pkg-1.0.zip", "pkg-1.0.zip", "pkg", "", true⟩ : URL) ∉
        (IndexParser.init "pkg").egglinks →
      parse_link (fun _ _ => false) true (IndexParser.init "pkg") []
        ⟨"http://h/pkg-1.0.zip", "pkg-1.0.zip", "pkg", "", true⟩ =
        (⟨(IndexParser.init "pkg").projectname,
          (IndexParser.init "pkg").basename2link,
          (IndexParser.init "pkg").crawllinks,
          ⟨"http://h/pkg-1.0.zip", "pkg-1.0.zip", "pkg", "", true⟩ ::
            (IndexParser.init "pkg").egglinks⟩, [])) ∧
    ((normalize_name "pkg").startsWith (IndexParser.init "pkg").projectname
        = true →
      (⟨"http://h/pkg-1.0.zip", "pkg-1.0.zip", "pkg", "", true⟩ : URL) ∈
        (IndexParser.init "pkg").egglinks →
      parse_link (fun _ _ => false) true (IndexParser.init "pkg") []
        ⟨"http://h/pkg-1.0.zip", "pkg-1.0.zip", "pkg", "", true⟩ =
        (IndexParser.init "pkg", [])) :=
  parse_link_egg_behavior (fun _ _ => false) (IndexParser.init "pkg") []
    ⟨"http://h/pkg-1.0.zip", "pkg-1.0.zip", "pkg", "", true⟩ rfl (by decide)

theorem process_changelog_loop_events :
    ∀ (changelog : List ChangeEntry) (st : MirrorState) (e : Event),
      e ∈ (process_changelog_loop st changelog).2.1 →
      ∃ k, e = Event.kvWrite k
  | [], st, e => by
      intro hm
      simp [process_changelog_loop] at hm
  | c :: rest, st, e => by
      intro hm
      simp only [process_changelog_loop] at hm
      split at hm
      · split at hm
        · simp at hm
        · rcases List.mem_cons.mp hm with h | h
          · exact ⟨_, h⟩
          · exact process_changelog_loop_events rest _ e h
      · exact process_changelog_loop_events rest _ e hm

/-- C7 counterexample: the claim states the registry-blob rewrite
happens only after the KV transaction has committed and never inside the
open write transaction.  In the code `dump_to_file` (line 386) runs
inside `process_changelog`, which `thread_run` calls inside the
`with keyfs.transaction(write=True)` block (lines 359-360), so the
rewrite precedes the commit.  At the concrete input below the iteration
trace is begin, blob rewrite, commit, and the blob rewrite occurs among
the events strictly before the commit. -/
theorem blob_rewrite_counterexample :
    (thread_run_iteration ⟨[], [], []⟩ [⟨"pkg", 1⟩]).2 =
      [Event.txBegin, Event.blobRewrite, Event.txCommit] ∧
    Event.blobRewrite ∈ ((thread_run_iteration ⟨[], [], []⟩
      [⟨"pkg", 1⟩]).2.takeWhile (fun e => ¬ e = Event.txCommit)) := by
  constructor
  · rfl
  · decide

/-- C7 amended: for every non-empty batch, the iteration's event trace
is a transaction begin, then the batch's KV writes with the registry
blob rewrite (when it happens) as the last event inside the transaction,
then the commit: the blob rewrite is performed inside the open write
transaction, immediately before the KV commit, not after it. -/
theorem blob_rewrite_inside_transaction (st : MirrorState)
    (changelog : List ChangeEntry) (h : ¬ changelog = []) :
    ∃ body, (thread_run_iteration st changelog).2 =
        Event.txBegin :: body ++ [Event.txCommit] ∧
      (∀ e ∈ body, e = Event.blobRewrite ∨ ∃ k, e = Event.kvWrite k) ∧
      (Event.blobRewrite ∈ body →
        body.getLast? = some Event.blobRewrite) := by
  refine ⟨(process_changelog st changelog).2, ?_, ?_, ?_⟩
  · simp [thread_run_iteration, h]
  · intro e he
    simp only [process_changelog] at he
    split at he
    · rcases List.mem_append.mp he with h1 | h1
      · exact Or.inr (process_changelog_loop_events changelog st e h1)
      · exact Or.inl (List.mem_singleton.mp h1)
    · exact Or.inr (process_changelog_loop_events changelog st e he)
  · intro hb
    simp only [process_changelog] at hb ⊢
    by_cases hc : ¬ (process_changelog_loop st changelog).2.2 = true ∧
        ¬ (process_changelog_loop st changelog).1.name2serials = []
    · rw [if_pos hc] at hb ⊢
      exact List.getLast?_concat _
    · rw [if_neg hc] at hb ⊢
      obtain ⟨k, hk⟩ := process_changelog_loop_events changelog st _ hb
      cases hk

/-- Witness for the amended C7 at a concrete input: a one-entry batch
against an empty state. -/
theorem blob_rewrite_inside_transaction_witness :
    ∃ body, (thread_run_iteration ⟨[], [], []⟩ [⟨"pkg", 1⟩]).2 =
        Event.txBegin :: body ++ [Event.txCommit] ∧
      (∀ e ∈ body, e = Event.blobRewrite ∨ ∃ k, e = Event.kvWrite k) ∧
      (Event.blobRewrite ∈ body →
        body.getLast? = some Event.blobRewrite) :=
  blob_rewrite_inside_transaction ⟨[], [], []⟩ [⟨"pkg", 1⟩] (by decide)

/-- C5: for every parser state, `releaselinks` is the egg-link list (in
the order it was built) followed by the archive links of
`basename2link`, which form a permutation of the stored links sorted in
descending `meta_le` order (`meta_le` standing for the `BasenameMeta`
comparison on parsed project, version, build tag and filename, assumed
transitive and total); the result is a pure function of the state, hence
deterministic for a given input. -/
theorem releaselinks_egg_then_sorted (meta_le : URL → URL → Bool)
    (st : IndexParser)
    (htrans : ∀ a b c, meta_le a b = true → meta_le b c = true →
      meta_le a c = true)
    (htotal : ∀ a b, (meta_le a b || meta_le b a) = true) :
    IndexParser.releaselinks meta_le st =
      st.egglinks ++
        (IndexParser.releaselinks meta_le st).drop st.egglinks.length ∧
    List.Perm
      ((IndexParser.releaselinks meta_le st).drop st.egglinks.length)
      (st.basename2link.map (fun p => p.2)) ∧
    List.Pairwise (fun a b => meta_le b a = true)
      ((IndexParser.releaselinks meta_le st).drop st.egglinks.length) := by
  have hdrop :
      (IndexParser.releaselinks meta_le st).drop st.egglinks.length =
        List.mergeSort (st.basename2link.map (fun p => p.2))
          (fun a b => meta_le b a) := by
    simp only [IndexParser.releaselinks]
    exact List.drop_left _ _
  refine ⟨?_, ?_, ?_⟩
  · rw [hdrop]
    rfl
  · rw [hdrop]
    exact List.mergeSort_perm _ _
  · rw [hdrop]
    exact @List.sorted_mergeSort URL (fun a b => meta_le b a)
      (fun a b c hab hbc => htrans c b a hbc hab)
      (fun a b => htotal b a)
      (st.basename2link.map (fun p => p.2))

/-- Witness for C5 at a concrete input: the comparison by url-string
length on a state with one egg link and two archive links. -/
theorem releaselinks_egg_then_sorted_witness :
    IndexParser.releaselinks urlLenLe relWitnessState =
      relWitnessState.egglinks ++
        (IndexParser.releaselinks urlLenLe relWitnessState).drop
          relWitnessState.egglinks.length ∧
    List.Perm
      ((IndexParser.releaselinks urlLenLe relWitnessState).drop
        relWitnessState.egglinks.length)
      (relWitnessState.basename2link.map (fun p => p.2)) ∧
    List.Pairwise (fun a b => urlLenLe b a = true)
      ((IndexParser.releaselinks urlLenLe relWitnessState).drop
        relWitnessState.egglinks.length) :=
  releaselinks_egg_then_sorted urlLenLe relWitnessState
    (fun a b c hab hbc => by
      simp only [urlLenLe, decide_eq_true_eq] at hab hbc ⊢
      omega)
    (fun a b => by
      simp only [urlLenLe, Bool.or_eq_true, decide_eq_true_eq]
      omega)

end Devpi
